import Mathlib

/-!
Verification of the resource-governance layer of the `canonical/starlark`
repository: the Safety flag bit-set, the per-thread resource `Monitor`
(step and memory quotas with a sticky latched error), the allocation
accounting wrapper, the static step estimator and the measurement
harness checks of `startest`.

Machine integers are modelled as `Nat` with explicit reduction modulo
`2 ^ 64` where the Go code relies on `uint64`/`uintptr` wraparound
(both are 64 bits wide on the target platforms).
-/

namespace Starlark

/-- `2 ^ 64`, the modulus of Go's `uint64` and of `uintptr` on 64-bit hosts. -/
def U64 : Nat := 2 ^ 64

/-- Largest `uint64` value, `math.MaxUint64`. -/
def maxUint64 : Nat := U64 - 1

/-! ## Safety flags

The `Safety` bit-set type itself is declared outside `src/`; only
`Safe = safetyFlagsLimit - 1` (src/starlark/export_test.go) and
`stSafe = CPUSafe | MemSafe | TimeSafe | IOSafe`
(src/startest/startest.go line 73) appear in the sources. -/

/-- Modelled from the spec: `Safety` is "an immutable bit-set over four
named flags"; its Go declaration is not under `src/`.  Represented as a
natural number holding the flag bits. -/
abbrev Safety := Nat

/-- Modelled from the spec: the four individually named flags occupy one
bit each; their Go constant declarations are not under `src/`. -/
def CPUSafe : Safety := 1

/-- Modelled from the spec: the memory-bounded flag. -/
def MemSafe : Safety := 2

/-- Modelled from the spec: the time-bounded flag. -/
def TimeSafe : Safety := 4

/-- Modelled from the spec: the I/O-free flag. -/
def IOSafe : Safety := 8

/-- Modelled from the spec: first value past the highest flag bit;
`Safe` in src/starlark/export_test.go is defined from it. -/
def safetyFlagsLimit : Safety := 16

/-- `const Safe = safetyFlagsLimit - 1` (src/starlark/export_test.go line 7). -/
def Safe : Safety := safetyFlagsLimit - 1

/-- Modelled from the spec: "`contains(a, b)` returns true iff every flag
set in `b` is also set in `a`", i.e. a bitwise subset check; the Go method
`Safety.Contains` is not under `src/` (it is called in
src/startest/startest.go). -/
def Safety.contains (a b : Safety) : Bool := a &&& b == b

/-- Modelled from the spec: "`union(a, b)` returns the set of flags
present in either", i.e. a bitwise or. -/
def Safety.union (a b : Safety) : Safety := a ||| b

/-- `stSafe = CPUSafe | MemSafe | TimeSafe | IOSafe`
(src/startest/startest.go line 73). -/
def stSafe : Safety := CPUSafe ||| MemSafe ||| TimeSafe ||| IOSafe

/-! ## Monitor

Direct translation of the `Monitor` type of src/unnamed/part_000
(package starlark), lines 308-434.  The Go field types are `uint64`
(`steps`, `maxSteps`) and `uintptr` (`locationsUsed`, `locationsCap`),
both 64 bits wide, so updates reduce modulo `U64`. -/

/-- The quota errors a `Monitor` can latch: `errors.New("too many steps")`
from `CheckUsage` and `fmt.Errorf("too much memory, failed to allocate %d
extra locs", delta)` from `DeclareSizeIncrease`. -/
inductive MonErr where
  | tooManySteps : MonErr
  | tooMuchMemory : Nat → MonErr
deriving DecidableEq, Repr

/-- The configuration errors returned by the cap setters when the monitor
is already in use; never latched. -/
inductive ConfigErr where
  | stepsInUse : ConfigErr
  | capInUse : ConfigErr
deriving DecidableEq, Repr

/-- `Monitor` (src/unnamed/part_000 lines 308-317): step counter and cap,
memory-unit counter and cap, and the latched error `err`. -/
structure Monitor where
  steps : Nat
  maxSteps : Nat
  locationsUsed : Nat
  locationsCap : Nat
  err : Option MonErr
deriving DecidableEq, Repr

/-- Default memory cap: `flag.Uint64("memcap", 1<<15-1, ...)`
(src/unnamed/part_000 line 306). -/
def DefaultLocationsCap : Nat := 2 ^ 15 - 1

/-- `Monitor.initMonitor` (src/unnamed/part_000 lines 350-362): a zero
cap defaults to `DefaultLocationsCap` (or wraps to the maximum when the
flag is zero), and a zero step cap wraps to `MaxUint64` via `maxSteps--`. -/
def Monitor.initMonitor (m : Monitor) : Monitor :=
  let m1 :=
    if m.locationsCap = 0 then
      if DefaultLocationsCap ≠ 0 then { m with locationsCap := DefaultLocationsCap }
      else { m with locationsCap := (m.locationsCap + (U64 - 1)) % U64 }
    else m
  if m1.maxSteps = 0 then { m1 with maxSteps := (m1.maxSteps + (U64 - 1)) % U64 } else m1

/-- `Monitor.CheckUsage` (src/unnamed/part_000 lines 364-373): return the
latched error if present; otherwise latch and return "too many steps"
when `steps >= maxSteps`; otherwise return nil.  The Go method mutates
the receiver, so the model returns the updated monitor with the error. -/
def Monitor.CheckUsage (m : Monitor) : Monitor × Option MonErr :=
  match m.err with
  | some e => (m, some e)
  | none =>
    if m.steps ≥ m.maxSteps then
      ({ m with err := some MonErr.tooManySteps }, some MonErr.tooManySteps)
    else
      (m, none)

/-- `Monitor.ExecutionSteps` (src/unnamed/part_000 lines 381-383). -/
def Monitor.ExecutionSteps (m : Monitor) : Nat := m.steps

/-- `Monitor.LocationsUsed` (src/unnamed/part_000 lines 401-403). -/
def Monitor.LocationsUsed (m : Monitor) : Nat := m.locationsUsed

/-- `Monitor.InUse` (src/unnamed/part_000 lines 413-415): `mon.steps > 0`. -/
def Monitor.InUse (m : Monitor) : Bool := 0 < m.steps

/-- `Monitor.SetMaxExecutionSteps` (src/unnamed/part_000 lines 389-395):
fails with a configuration error when the monitor is in use, otherwise
stores the new step cap. -/
def Monitor.SetMaxExecutionSteps (m : Monitor) (max : Nat) : Monitor × Option ConfigErr :=
  if m.InUse then (m, some ConfigErr.stepsInUse)
  else ({ m with maxSteps := max }, none)

/-- `Monitor.SetLocationsCap` (src/unnamed/part_000 lines 405-411):
fails with a configuration error when the monitor is in use, otherwise
stores the new memory cap. -/
def Monitor.SetLocationsCap (m : Monitor) (max : Nat) : Monitor × Option ConfigErr :=
  if m.InUse then (m, some ConfigErr.capInUse)
  else ({ m with locationsCap := max }, none)

/-- `Monitor.countStep` (src/unnamed/part_000 lines 397-399):
`mon.steps++` in `uint64` arithmetic. -/
def Monitor.countStep (m : Monitor) : Monitor :=
  { m with steps := (m.steps + 1) % U64 }

/-- `Monitor.DeclareSizeIncrease` (src/unnamed/part_000 lines 417-427):
return the latched error if present; otherwise add `delta` to
`locationsUsed` (uintptr arithmetic) and, when the new total meets or
exceeds `locationsCap`, latch and return "too much memory". -/
def Monitor.DeclareSizeIncrease (m : Monitor) (delta : Nat) : Monitor × Option MonErr :=
  match m.err with
  | some e => (m, some e)
  | none =>
    let used := (m.locationsUsed + delta) % U64
    if used ≥ m.locationsCap then
      ({ m with locationsUsed := used, err := some (MonErr.tooMuchMemory delta) },
        some (MonErr.tooMuchMemory delta))
    else
      ({ m with locationsUsed := used }, none)

/-- `Monitor.DeclareSizeDecrease` (src/unnamed/part_000 lines 429-434):
no-op when latched; otherwise `atomic.AddUintptr(&mon.locationsUsed,
-delta)`, an unchecked two's-complement subtraction modulo `2 ^ 64`. -/
def Monitor.DeclareSizeDecrease (m : Monitor) (delta : Nat) : Monitor :=
  match m.err with
  | some _ => m
  | none => { m with locationsUsed := (m.locationsUsed + (U64 - delta % U64)) % U64 }

/-! ## Claims C1, C2, C5, C10: Monitor latch, cap guard, step check, wrap -/

/-- C1: once an error is latched, `CheckUsage` and `DeclareSizeIncrease`
return the identical stored error and leave the monitor (in particular
`locationsUsed` and the latch) unchanged, and `DeclareSizeDecrease`
leaves the whole monitor, hence `locationsUsed` and the latch, unchanged. -/
theorem monitor_latch_sticky (m : Monitor) (e : MonErr) (d1 d2 d3 : Nat)
    (h : m.err = some e) :
    m.CheckUsage = (m, some e) ∧
    m.DeclareSizeIncrease d1 = (m, some e) ∧
    m.DeclareSizeDecrease d2 = m ∧
    (m.DeclareSizeIncrease d3).1.err = some e := by
  refine ⟨?_, ?_, ?_, ?_⟩ <;>
    simp [Monitor.CheckUsage, Monitor.DeclareSizeIncrease, Monitor.DeclareSizeDecrease, h]

theorem monitor_latch_sticky_witness :
    (Monitor.mk 0 10 5 10 (some MonErr.tooManySteps)).CheckUsage
        = (Monitor.mk 0 10 5 10 (some MonErr.tooManySteps), some MonErr.tooManySteps) ∧
    (Monitor.mk 0 10 5 10 (some MonErr.tooManySteps)).DeclareSizeIncrease 3
        = (Monitor.mk 0 10 5 10 (some MonErr.tooManySteps), some MonErr.tooManySteps) ∧
    (Monitor.mk 0 10 5 10 (some MonErr.tooManySteps)).DeclareSizeDecrease 4
        = Monitor.mk 0 10 5 10 (some MonErr.tooManySteps) ∧
    ((Monitor.mk 0 10 5 10 (some MonErr.tooManySteps)).DeclareSizeIncrease 7).1.err
        = some MonErr.tooManySteps :=
  monitor_latch_sticky (Monitor.mk 0 10 5 10 (some MonErr.tooManySteps))
    MonErr.tooManySteps 3 4 7 rfl

/-- C2 counterexample: after one `DeclareSizeIncrease` call (and no
`countStep`), `SetLocationsCap` and `SetMaxExecutionSteps` still succeed
and change the caps — the "in use" guard (`InUse`, src/unnamed/part_000
line 414) only tests `steps > 0`, so the claim that the setters fail
after a `DeclareSizeIncrease` call is false. -/
theorem monitor_cap_guard_counterexample :
    ((Monitor.mk 0 100 0 1000 none).DeclareSizeIncrease 1).2 = none ∧
    ((Monitor.mk 0 100 0 1000 none).DeclareSizeIncrease 1).1.SetLocationsCap 5
      = (Monitor.mk 0 100 1 5 none, none) ∧
    ((Monitor.mk 0 100 0 1000 none).DeclareSizeIncrease 1).1.SetMaxExecutionSteps 7
      = (Monitor.mk 0 7 1 1000 none, none) := by
  decide

/-- C2 amended: `SetMaxExecutionSteps` and `SetLocationsCap` fail with a
configuration error, leaving the monitor (hence both caps) unchanged,
exactly when the step counter is nonzero — i.e. after at least one
`countStep` call; `DeclareSizeIncrease` does not mark the Monitor in use. -/
theorem monitor_cap_guard_amended (m : Monitor) (a b : Nat) (h : 0 < m.steps) :
    m.SetMaxExecutionSteps a = (m, some ConfigErr.stepsInUse) ∧
    m.SetLocationsCap b = (m, some ConfigErr.capInUse) := by
  constructor <;>
    simp [Monitor.SetMaxExecutionSteps, Monitor.SetLocationsCap, Monitor.InUse, h]

theorem monitor_cap_guard_amended_witness :
    0 < (Monitor.mk 1 100 0 1000 none).steps ∧
    (Monitor.mk 1 100 0 1000 none).SetMaxExecutionSteps 3
      = (Monitor.mk 1 100 0 1000 none, some ConfigErr.stepsInUse) ∧
    (Monitor.mk 1 100 0 1000 none).SetLocationsCap 4
      = (Monitor.mk 1 100 0 1000 none, some ConfigErr.capInUse) :=
  ⟨by decide, monitor_cap_guard_amended (Monitor.mk 1 100 0 1000 none) 3 4 (by decide)⟩

/-- C5 counterexample: an unlatched monitor with `steps = maxSteps = 5`
receives the "too many steps" latch from `CheckUsage` even though its
step count does not exceed `maxSteps` — the source test is
`steps >= maxSteps` (src/unnamed/part_000 line 368), not strict excess. -/
theorem checkusage_strict_excess_counterexample :
    ((Monitor.mk 5 5 0 10 none).CheckUsage).2 = some MonErr.tooManySteps ∧
    ¬ 5 > 5 := by
  decide

/-- C5 amended: on an unlatched monitor, `CheckUsage` returns ok and
leaves the monitor unchanged exactly when `steps < maxSteps`; when
`steps ≥ maxSteps` (reaching the cap already fails) it constructs the
"too many steps" error, stores it as the permanent latch and returns it,
so `steps < maxSteps` holds whenever `CheckUsage` reports ok. -/
theorem checkusage_threshold (m : Monitor) (h : m.err = none) :
    (m.steps < m.maxSteps → m.CheckUsage = (m, none)) ∧
    (m.maxSteps ≤ m.steps →
      m.CheckUsage = ({ m with err := some MonErr.tooManySteps }, some MonErr.tooManySteps)) ∧
    ((m.CheckUsage).2 = none → m.steps < m.maxSteps) := by
  refine ⟨fun hlt => ?_, fun hge => ?_, fun hok => ?_⟩
  · simp [Monitor.CheckUsage, h, Nat.not_le.mpr hlt]
  · simp [Monitor.CheckUsage, h, hge]
  · by_contra hge
    simp [Monitor.CheckUsage, h, Nat.le_of_not_lt hge] at hok

theorem checkusage_threshold_witness :
    (Monitor.mk 3 10 0 100 none).CheckUsage = (Monitor.mk 3 10 0 100 none, none) ∧
    (Monitor.mk 10 10 0 100 none).CheckUsage
      = (Monitor.mk 10 10 0 100 (some MonErr.tooManySteps), some MonErr.tooManySteps) :=
  ⟨(checkusage_threshold (Monitor.mk 3 10 0 100 none) rfl).1 (by decide),
   (checkusage_threshold (Monitor.mk 10 10 0 100 none) rfl).2.1 (by decide)⟩

/-- C10: on an unlatched monitor, `DeclareSizeDecrease delta` performs an
unchecked subtraction modulo `2 ^ 64`: when `delta` exceeds the current
`locationsUsed` the counter wraps to `locationsUsed + 2 ^ 64 - delta`, a
value strictly larger than before (no clamping at zero), and the call
latches no error. -/
theorem declare_size_decrease_wraps (m : Monitor) (delta : Nat)
    (h : m.err = none) (hlt : m.locationsUsed < delta) (hd : delta < U64) :
    (m.DeclareSizeDecrease delta).locationsUsed = m.locationsUsed + (U64 - delta) ∧
    m.locationsUsed < (m.DeclareSizeDecrease delta).locationsUsed ∧
    (m.DeclareSizeDecrease delta).err = none := by
  have hmod : delta % U64 = delta := Nat.mod_eq_of_lt hd
  have hlt2 : m.locationsUsed + (U64 - delta) < U64 := by omega
  refine ⟨?_, ?_, ?_⟩
  all_goals simp [Monitor.DeclareSizeDecrease, h, hmod, Nat.mod_eq_of_lt hlt2]
  all_goals omega

theorem declare_size_decrease_wraps_witness :
    ((Monitor.mk 0 10 0 100 none).DeclareSizeDecrease 1).locationsUsed = 0 + (U64 - 1) ∧
    (0 : Nat) < ((Monitor.mk 0 10 0 100 none).DeclareSizeDecrease 1).locationsUsed ∧
    ((Monitor.mk 0 10 0 100 none).DeclareSizeDecrease 1).err = none := by
  have h := declare_size_decrease_wraps (Monitor.mk 0 10 0 100 none) 1 rfl
    (by decide) (by norm_num [U64])
  simpa using h

/-! ## Allocation-accounting wrapper

`starlark.AccountAllocsForOperation` is exercised by
`TestAllocAccountingWrapper` (src/unnamed/part_001 lines 43-171) but its
body is not under `src/`, so it is modelled from spec section 4.4.  The
operation's outcome is passed in as a pair `(opRes, opErr)` of options,
and the model reports how often the operation was invoked in `opCalls`
(the role the test's `opDone` flag plays). -/

/-- Result of one wrapper call: the updated monitor, the returned result
and error (`Sum.inl` a monitor quota error, `Sum.inr` the operation's own
error), and the number of times the operation was invoked. -/
structure WrapResult (V E : Type) where
  mon : Monitor
  result : Option V
  error : Option (MonErr ⊕ E)
  opCalls : Nat
deriving DecidableEq, Repr

/-- Modelled from the spec: `AccountAllocsForOperation` (section 4.4, not
under `src/`).  (1) A non-zero pre-declared estimate is declared as a
size increase before the operation runs; on failure the wrapper returns a
nil result and the latched error without invoking the operation.
(2) Otherwise the operation runs exactly once; its own error is
propagated with a nil result.  (3) With a sizer and a successful
operation, the difference between measured size and pre-declared estimate
is reconciled against the monitor by a further increase or by a decrease,
never by re-adding the full measured size.  (4) A failing reconciliation
also yields a nil result and the latched error. -/
def AccountAllocsForOperation {V E : Type} (m : Monitor) (opRes : Option V)
    (opErr : Option E) (prealloc : Nat) (sizer : Option (V → Nat)) : WrapResult V E :=
  let pre := if prealloc = 0 then (m, none) else m.DeclareSizeIncrease prealloc
  match pre.2 with
  | some e => ⟨pre.1, none, some (Sum.inl e), 0⟩
  | none =>
    match opErr with
    | some e => ⟨pre.1, none, some (Sum.inr e), 1⟩
    | none =>
      match sizer, opRes with
      | some sz, some v =>
        let measured := sz v
        if prealloc ≤ measured then
          let post := pre.1.DeclareSizeIncrease (measured - prealloc)
          match post.2 with
          | some e => ⟨post.1, none, some (Sum.inl e), 1⟩
          | none => ⟨post.1, opRes, none, 1⟩
        else
          ⟨pre.1.DeclareSizeDecrease (prealloc - measured), opRes, none, 1⟩
      | _, _ => ⟨pre.1, opRes, none, 1⟩

/-! ## Claims C3, C4, C9: wrapper behaviour -/

/-- C3: with a non-zero pre-declared estimate whose declaration fails,
the wrapper returns immediately with a nil result and the latched error,
and the operation is never invoked (`opCalls = 0`). -/
theorem wrapper_prealloc_fail_skips_op {V E : Type} (m : Monitor) (opRes : Option V)
    (opErr : Option E) (prealloc : Nat) (sizer : Option (V → Nat)) (e : MonErr)
    (hp : prealloc ≠ 0) (hfail : (m.DeclareSizeIncrease prealloc).2 = some e) :
    AccountAllocsForOperation m opRes opErr prealloc sizer
      = ⟨(m.DeclareSizeIncrease prealloc).1, none, some (Sum.inl e), 0⟩ := by
  unfold AccountAllocsForOperation
  simp only [if_neg hp]
  split
  · next heq => simp_all
  · next heq => simp_all

theorem wrapper_prealloc_fail_skips_op_witness :
    (101 : Nat) ≠ 0 ∧
    ((Monitor.mk 0 1000 0 1 none).DeclareSizeIncrease 101).2
      = some (MonErr.tooMuchMemory 101) ∧
    AccountAllocsForOperation (V := Nat) (E := Unit) (Monitor.mk 0 1000 0 1 none)
        (some 7) none 101 none
      = ⟨Monitor.mk 0 1000 101 1 (some (MonErr.tooMuchMemory 101)), none,
          some (Sum.inl (MonErr.tooMuchMemory 101)), 0⟩ := by
  refine ⟨by decide, by decide, ?_⟩
  have h := wrapper_prealloc_fail_skips_op (V := Nat) (E := Unit)
    (Monitor.mk 0 1000 0 1 none) (some 7) none 101 none
    (MonErr.tooMuchMemory 101) (by decide) (by decide)
  simpa using h

/-- C4: concrete reconciliation-by-subtraction scenario of the spec: with
a pre-declared estimate of 100, a cap of 200 and a sizer measuring the
result at 60, the wrapper succeeds, the monitor's final `locationsUsed`
is 60 (not 160), and the operation is invoked exactly once. -/
theorem wrapper_reconciles_by_subtraction :
    (AccountAllocsForOperation (V := Nat) (E := Unit) (Monitor.mk 0 1000 0 200 none)
        (some 7) none 100 (some fun _ => 60)).result = some 7 ∧
    (AccountAllocsForOperation (V := Nat) (E := Unit) (Monitor.mk 0 1000 0 200 none)
        (some 7) none 100 (some fun _ => 60)).error = none ∧
    (AccountAllocsForOperation (V := Nat) (E := Unit) (Monitor.mk 0 1000 0 200 none)
        (some 7) none 100 (some fun _ => 60)).mon.locationsUsed = 60 ∧
    (AccountAllocsForOperation (V := Nat) (E := Unit) (Monitor.mk 0 1000 0 200 none)
        (some 7) none 100 (some fun _ => 60)).mon.locationsUsed ≠ 160 ∧
    (AccountAllocsForOperation (V := Nat) (E := Unit) (Monitor.mk 0 1000 0 200 none)
        (some 7) none 100 (some fun _ => 60)).opCalls = 1 := by
  decide

/-- C9: the wrapper never returns a non-nil result together with a
non-nil error — in every combination of monitor state, pre-declared
estimate, sizer and operation outcome, at least one of the returned pair
is nil. -/
theorem wrapper_result_error_exclusive {V E : Type} (m : Monitor) (opRes : Option V)
    (opErr : Option E) (prealloc : Nat) (sizer : Option (V → Nat)) :
    (AccountAllocsForOperation m opRes opErr prealloc sizer).result = none ∨
    (AccountAllocsForOperation m opRes opErr prealloc sizer).error = none := by
  unfold AccountAllocsForOperation
  cases h1 : (if prealloc = 0 then (m, none) else m.DeclareSizeIncrease prealloc).2 with
  | some e => simp [h1]
  | none =>
    cases opErr with
    | some e => simp [h1]
    | none =>
      cases sizer with
      | none => simp [h1]
      | some sz =>
        cases opRes with
        | none => simp [h1]
        | some v =>
          by_cases h2 : prealloc ≤ sz v
          · cases h3 : ((if prealloc = 0 then (m, none)
                else m.DeclareSizeIncrease prealloc).1.DeclareSizeIncrease (sz v - prealloc)).2 with
            | some e => simp [h1, h2, h3]
            | none => simp [h1, h2, h3]
          · simp [h1, h2]

/-! ## Step estimator

Translation of `EstimateSteps` and `EstimateIterSteps`
(src/unnamed/part_000 lines 219-285).  The compiler front end
(`SourceProgram` and the opcode table) is an external collaborator, so it
is abstracted as a function `compile : String → Option (List Nat)`
returning the toplevel byte code on success, together with the constant
`compile.OpcodeArgMin` passed in as `argMin`. -/

/-- `uint64` subtraction `a - b` with wraparound. -/
def u64sub (a b : Nat) : Nat := (a % U64 + (U64 - b % U64)) % U64

/-- `uint64` addition with wraparound. -/
def u64add (a b : Nat) : Nat := (a + b) % U64

/-- `uint64` multiplication with wraparound. -/
def u64mul (a b : Nat) : Nat := a * b % U64

/-- The operand-skipping inner loop of `EstimateSteps`
(src/unnamed/part_000 lines 237-244): drop operand bytes while their high
bit is set, and also drop the final operand byte with high bit clear.
(On a truncated operand the Go code would read out of bounds; the model
returns the empty remainder.) -/
def skipArgs : List Nat → List Nat
  | [] => []
  | b :: rest => if b < 0x80 then rest else skipArgs rest

/-- The instruction-counting loop of `EstimateSteps`
(src/unnamed/part_000 lines 230-246), one step per opcode, skipping
variable-length operands of opcodes `≥ argMin`.  Structured with
explicit fuel so that it is structurally recursive; `skipArgs` never
lengthens the list, so fuel `= byteCode.length` never runs out. -/
def countStepsAux (argMin : Nat) : Nat → List Nat → Nat
  | _, [] => 0
  | 0, _ :: _ => 0
  | fuel + 1, b :: rest =>
    if argMin ≤ b then 1 + countStepsAux argMin fuel (skipArgs rest)
    else 1 + countStepsAux argMin fuel rest

/-- Steps counted over a whole byte-code stream. -/
def countSteps (argMin : Nat) (byteCode : List Nat) : Nat :=
  countStepsAux argMin byteCode.length byteCode

/-- `const snippetOverhead = 3` (src/unnamed/part_000 line 253): the
fixed POP / push-NONE / RETURN wrap-up every compiled snippet carries. -/
def snippetOverhead : Nat := 3

/-- `const iterOverhead = 6` (src/unnamed/part_000 line 275): the fixed
per-iteration loop overhead. -/
def iterOverhead : Nat := 6

/-- `EstimateSteps` (src/unnamed/part_000 lines 219-255): compile the
snippet, count one step per instruction of the toplevel byte code, and
subtract the fixed snippet overhead in `uint64` arithmetic.  Compilation
failure surfaces as an estimation error (`none`). -/
def EstimateSteps (compile : String → Option (List Nat)) (argMin : Nat)
    (code : String) : Option Nat :=
  (compile code).map fun byteCode => u64sub (countSteps argMin byteCode) snippetOverhead

/-- `EstimateIterSteps` (src/unnamed/part_000 lines 267-277):
`uint64(n) * (stepsPerIter + iterOverhead)` in `uint64` arithmetic, where
`stepsPerIter` is the single-run estimate. -/
def EstimateIterSteps (compile : String → Option (List Nat)) (argMin : Nat)
    (code : String) (n : Nat) : Option Nat :=
  (EstimateSteps compile argMin code).map fun stepsPerIter =>
    n % U64 * ((stepsPerIter + iterOverhead) % U64) % U64

/-! ## Claim C7: loop-aware estimate is linear in the repeat count -/

/-- C7: whenever the snippet compiles (the single-run estimate is
`some s`), the loop-aware estimate for repeat count `n` equals
`n * s + n * 6` in `uint64` arithmetic — `n` times the single-run
estimate plus `n` times the fixed per-iteration overhead constant. -/
theorem estimate_iter_steps_linear (compile : String → Option (List Nat))
    (argMin : Nat) (code : String) (n s : Nat)
    (h : EstimateSteps compile argMin code = some s) :
    EstimateIterSteps compile argMin code n
      = some (u64add (u64mul n s) (u64mul n iterOverhead)) := by
  unfold EstimateIterSteps
  rw [h, Option.map_some']
  simp only [u64add, u64mul]
  congr 1
  conv_lhs => rw [← Nat.mul_mod]
  conv_rhs => rw [← Nat.add_mod]
  rw [Nat.mul_add]

/-- Witness at `n = 10` with a concrete compiler stub: the four-opcode
stream counts 4 steps, the single-run estimate is `4 - 3 = 1` and the
loop estimate over 10 iterations is `10 * 1 + 10 * 6 = 70`. -/
theorem estimate_iter_steps_linear_witness :
    EstimateSteps (fun _ => some [0, 0, 0, 0]) 256 "x = 1" = some 1 ∧
    EstimateIterSteps (fun _ => some [0, 0, 0, 0]) 256 "x = 1" 10
      = some (u64add (u64mul 10 1) (u64mul 10 iterOverhead)) ∧
    u64add (u64mul 10 1) (u64mul 10 iterOverhead) = 70 :=
  ⟨by decide,
   estimate_iter_steps_linear (fun _ => some [0, 0, 0, 0]) 256 "x = 1" 10 1 (by decide),
   by decide⟩

/-! ## Claim C8: Safety bit-set algebra -/

/-- C8: for all Safety bit-sets `a` and `b`, the union contains both of
its constituents, and the declared all-flags constant `Safe` equals the
union of the four individually named flags (this union is spelled
`stSafe` in src/startest/startest.go line 73). -/
theorem safety_union_contains_and_safe_is_all_flags :
    (∀ a b : Safety, (Safety.union a b).contains a = true ∧
      (Safety.union a b).contains b = true) ∧
    Safe = Safety.union (Safety.union (Safety.union CPUSafe MemSafe) TimeSafe) IOSafe ∧
    Safe = stSafe := by
  refine ⟨fun a b => ⟨?_, ?_⟩, by decide, by decide⟩
  · simp only [Safety.union, Safety.contains, beq_iff_eq]
    refine Nat.eq_of_testBit_eq fun i => ?_
    simp only [Nat.testBit_and, Nat.testBit_or]
    cases a.testBit i <;> cases b.testBit i <;> rfl
  · simp only [Safety.union, Safety.contains, beq_iff_eq]
    refine Nat.eq_of_testBit_eq fun i => ?_
    simp only [Nat.testBit_and, Nat.testBit_or]
    cases a.testBit i <;> cases b.testBit i <;> rfl

/-! ## Measurement harness: post-loop checks of `ST.RunThread`

Translation of the comparison block of `ST.RunThread`
(src/startest/startest.go lines 238-264) that runs after
`measureResources` returns.  Inputs are the harness configuration
(`maxAllocs`, `maxExecutionSteps`, `requiredSafety`), the measured sums
(`memorySum`, `nSum`, `modelStepSum`) and the thread's self-declared
counters (`threadAllocs` from `thread.Allocs()`, `threadSteps` from
`thread.ExecutionSteps()`).  All divisions are Go `uint64` divisions;
the loop guarantees `nSum ≥ 1` whenever this block runs.  The model
collects the `Errorf` calls, in source order, as a list of failures. -/

/-- One failure reported by `ST.RunThread` after the measurement loop,
one constructor per `st.Errorf` call site (src/startest/startest.go
lines 238-264, in source order). -/
inductive STFailure where
  | measuredAboveMax : STFailure
  | declaredAboveMax : STFailure
  | measuredAboveDeclared : STFailure
  | stepsAboveMax : STFailure
  | modelStepsAboveMax : STFailure
  | modelAboveDeclaredSteps : STFailure
deriving DecidableEq, Repr

/-- The post-loop checks of `ST.RunThread` (src/startest/startest.go
lines 238-264): mean measured memory against the ceiling; when `MemSafe`
is required, mean declared allocations against the ceiling and mean
measured memory against mean declared allocations; mean declared steps
against the step ceiling; when `CPUSafe` is required, mean model steps
against the step ceiling and against mean declared steps. -/
def runThreadChecks (maxAllocs maxExecutionSteps : Nat) (requiredSafety : Safety)
    (memorySum nSum threadAllocs threadSteps modelStepSum : Nat) : List STFailure :=
  let meanMeasuredAllocs := memorySum / nSum
  (if maxAllocs ≠ maxUint64 ∧ meanMeasuredAllocs > maxAllocs
    then [STFailure.measuredAboveMax] else []) ++
  (if requiredSafety.contains MemSafe then
    let meanDeclaredAllocs := threadAllocs / nSum
    (if meanDeclaredAllocs > maxAllocs then [STFailure.declaredAboveMax] else []) ++
    (if meanMeasuredAllocs > meanDeclaredAllocs
      then [STFailure.measuredAboveDeclared] else [])
   else []) ++
  (let meanExecutionSteps := threadSteps / nSum
  (if maxExecutionSteps ≠ maxUint64 ∧ meanExecutionSteps > maxExecutionSteps
    then [STFailure.stepsAboveMax] else []) ++
  (if requiredSafety.contains CPUSafe then
    let meanModelExecutionSteps := modelStepSum / nSum
    (if meanModelExecutionSteps > maxExecutionSteps
      then [STFailure.modelStepsAboveMax] else []) ++
    (if meanModelExecutionSteps > meanExecutionSteps
      then [STFailure.modelAboveDeclaredSteps] else [])
   else []))

/-! ## Claim C6: two-sided memory check under MemSafe -/

/-- C6: when memory safety is required, the harness reports a failure
whenever the mean declared allocations (`threadAllocs / nSum`) exceed the
configured ceiling, and — independently of the ceiling check — whenever
the mean measured memory exceeds the mean declared allocations
(under-declaring relative to measured usage). -/
theorem runthread_memsafe_two_sided (maxAllocs maxExecutionSteps : Nat)
    (requiredSafety : Safety) (memorySum nSum threadAllocs threadSteps modelStepSum : Nat)
    (hsafe : requiredSafety.contains MemSafe = true) (_hn : 0 < nSum) :
    (threadAllocs / nSum > maxAllocs →
      STFailure.declaredAboveMax ∈ runThreadChecks maxAllocs maxExecutionSteps
        requiredSafety memorySum nSum threadAllocs threadSteps modelStepSum) ∧
    (memorySum / nSum > threadAllocs / nSum →
      STFailure.measuredAboveDeclared ∈ runThreadChecks maxAllocs maxExecutionSteps
        requiredSafety memorySum nSum threadAllocs threadSteps modelStepSum) := by
  constructor <;> intro hgt <;>
    simp [runThreadChecks, hsafe, hgt, List.mem_append]

theorem runthread_memsafe_two_sided_witness :
    Safety.contains stSafe MemSafe = true ∧ (0 : Nat) < 2 ∧
    (30 / 2 > (10 : Nat) →
      STFailure.declaredAboveMax ∈ runThreadChecks 10 maxUint64 stSafe 50 2 30 0 0) ∧
    (50 / 2 > (30 : Nat) / 2 →
      STFailure.measuredAboveDeclared ∈ runThreadChecks 10 maxUint64 stSafe 50 2 30 0 0) :=
  ⟨by decide, by decide,
   (runthread_memsafe_two_sided 10 maxUint64 stSafe 50 2 30 0 0 (by decide) (by decide)).1,
   (runthread_memsafe_two_sided 10 maxUint64 stSafe 50 2 30 0 0 (by decide) (by decide)).2⟩

end Starlark
